import Mathlib

/-!
Shallow embedding of the booking-validation logic of
`appointment_booking/models/booking.py` (the `Booking.clean` method).

Modelling conventions:
* A datetime value is a naive timestamp in whole seconds (`Int`), with
  day 0 = 1970-01-01, a Thursday.  `datetime.time()` becomes seconds of
  day (`timeOfDay`), and `strftime("%A").lower()` becomes `weekdayName`.
* The database and the ORM lookups performed by `clean` are an explicit
  environment `Env`: the current time `timezone.now()`, the list of all
  persisted bookings (`Booking.objects`), the staff assigned to the
  service of the booking (`self.service_id.assigned_staffs`), and the
  per-staff working-hours lookup
  (`Staff_Times.objects.filter(user = staff).first()`).
* Each distinct `raise` site of `clean` is one constructor of
  `CleanError`; `messageOf` records the exact message raised there and
  `fieldOf` the field key of the `ValidationError` dict (or `none` for
  the field-less `ValidationError` of the payment-status check).  An
  uncaught Python `ValueError` escaping from `datetime.strptime` is the
  separate constructor `valueError`, distinguished from a Django
  `ValidationError` by `isValidationError`.
* `clean` returns `none` when validation succeeds (the Python method
  falls through to `super().clean()`) and `some e` when it terminates
  with exception `e`.
-/

/-- Seconds of day of a timestamp: the embedding of `datetime.time()`.
Python compares `time` objects lexicographically by
(hour, minute, second, microsecond), which at whole-second resolution is
comparison of seconds of day. -/
def timeOfDay (t : Int) : Int := t.emod 86400

/-- Lowercase English weekday names, indexed from Monday, as produced by
`strftime("%A").lower()` in the C locale. -/
def dayNames : List String :=
  ["monday", "tuesday", "wednesday", "thursday", "friday", "saturday", "sunday"]

/-- The embedding of `self.start_time.strftime("%A").lower()`:
day 0 of the epoch is a Thursday, index 3 counting from Monday. -/
def weekdayName (t : Int) : String :=
  dayNames.getD ((t.ediv 86400 + 3).emod 7).toNat ""

/-- Value of a list of decimal digit characters. -/
def digitsVal (cs : List Char) : Nat :=
  cs.foldl (fun a c => a * 10 + (c.toNat - 48)) 0

/-- The embedding of `datetime.strptime(s, "%I:%M%p").time()`, as seconds
of day.  `none` models the `ValueError` that `strptime` raises on a
non-matching string.  CPython compiles this format to the regex
`(1[0-2]|0[1-9]|[1-9]):([0-5][0-9]|[0-9])(AM|PM)` (the AM/PM
alternatives case-insensitive, C locale), anchored and consuming the
whole string: the hour is one or two digits with value 1..12, the
minutes one or two digits with value 0..59 (two-digit form `[0-5][0-9]`),
followed by `:` and `AM`/`PM`.  `%p` then maps hour 12 AM to 0 and adds
12 to PM hours other than 12. -/
def parse12Hour (s : String) : Option Int :=
  let cs := s.toList
  let hds := cs.takeWhile Char.isDigit
  let h := digitsVal hds
  if (hds.length = 1 ∨ hds.length = 2) ∧ 1 ≤ h ∧ h ≤ 12 then
    match cs.dropWhile Char.isDigit with
    | ':' :: rest =>
      let mds := rest.takeWhile Char.isDigit
      let m := digitsVal mds
      if mds.length = 1 ∨ (mds.length = 2 ∧ m ≤ 59) then
        match rest.dropWhile Char.isDigit with
        | [p, q] =>
          if q = 'M' ∨ q = 'm' then
            if p = 'A' ∨ p = 'a' then
              some (((if h = 12 then 0 else h) * 3600 + m * 60 : Nat) : Int)
            else if p = 'P' ∨ p = 'p' then
              some (((if h = 12 then 12 else h + 12) * 3600 + m * 60 : Nat) : Int)
            else none
          else none
        | _ => none
      else none
    | _ => none
  else none

/-- The fields of the `Booking` model that `clean` reads.  `id` is the
primary key (used by `.exclude(id = self.id)`), `is_canceled` the
cancellation flag (never read by `clean`). -/
structure Booking where
  id : Nat
  start_time : Int
  end_time : Int
  service_id : Nat
  is_canceled : Bool
  payment_status : String
deriving DecidableEq, Repr

/-- One weekday entry of a working-hours record: a JSON object from
which `clean` reads the `"start"` and `"end"` keys with
`day_times.get("start", "")` / `day_times.get("end", "")`. -/
structure DayTimes where
  startS : Option String
  endS : Option String
deriving DecidableEq, Repr

/-- The `Staff_Times` model as `clean` sees it: `working_hours` is a
JSON object mapping lowercase weekday names to day entries, embedded as
an association list (keys unique in practice; lookup takes the first
match, and `d not in working_hours` is failure of that lookup). -/
structure Staff_Times where
  working_hours : List (String × DayTimes)
deriving DecidableEq, Repr

/-- The state `clean` reads through the ORM.
`now` is `timezone.now()`; `bookings` is the `Booking.objects` table;
`assigned_staffs` is `self.service_id.assigned_staffs`.
Modelled from the spec: `service.py` is not among the sources; per the
spec a `Service` "owns an assignment to staff" (a single optional staff
reference), so `assigned_staffs` is an optional staff key, `none` when
no staff is assigned (the falsy case of `if not assigned_staff`).
`staff_times` is `Staff_Times.objects.filter(user = staff).first()`,
the working-hours record of a staff member if one exists. -/
structure Env where
  now : Int
  bookings : List Booking
  assigned_staffs : Option Nat
  staff_times : Nat → Option Staff_Times

/-- The ways `Booking.clean` can terminate abnormally: one constructor
per `raise` site, in source order, plus `valueError` for the Python
`ValueError` that escapes from `datetime.strptime` (line 177/178) when a
working-hours string does not match `"%I:%M%p"`. -/
inductive CleanError where
  | startBeforeEnd
  | startInPast
  | overlap
  | noStaff
  | noWorkingHours
  | dayNotDefined
  | incompleteHours
  | outsideHours
  | invalidStatus
  | valueError (s : String)
deriving DecidableEq, Repr

/-- The message of each raise site, as in the source. -/
def messageOf : CleanError → String
  | .startBeforeEnd => "Start time must be before end time."
  | .startInPast => "Start time must be at least 20 seconds in the future."
  | .overlap => "This booking overlaps with an existing booking for the same service."
  | .noStaff => "No staff is assigned to this service."
  | .noWorkingHours => "Working hours for the assigned staff are not defined."
  | .dayNotDefined => "Working hours for this day are not defined."
  | .incompleteHours => "Working hours are incomplete for this day."
  | .outsideHours => "Booking times must be within the working hours of the assigned staff."
  | .invalidStatus => "The status of the booking must be one of the available choices ."
  | .valueError s => s

/-- The field key of the `ValidationError` dict at each raise site.
The payment-status check raises `ValidationError(_, code = "invalid")`
with a bare message and no field dict, and a `ValueError` is no
`ValidationError` at all: both map to `none`. -/
def fieldOf : CleanError → Option String
  | .startBeforeEnd => some "start_time"
  | .startInPast => some "start_time"
  | .overlap => some "start_time"
  | .noStaff => some "service_id"
  | .noWorkingHours => some "service_id"
  | .dayNotDefined => some "start_time"
  | .incompleteHours => some "start_time"
  | .outsideHours => some "start_time"
  | .invalidStatus => none
  | .valueError _ => none

/-- Whether the abnormal outcome is a Django `ValidationError`
(as opposed to the uncaught `ValueError` from `strptime`). -/
def isValidationError : CleanError → Bool
  | .valueError _ => false
  | _ => true

/-- Modelled from the spec: `Order_Status_Choices`
(`appointment_booking/models/helper/enums.py`) is not among the sources;
the spec describes "a payment status drawn from a fixed enumeration
(e.g., pending, paid, failed — exact set defined externally)".  The
membership test `self.payment_status not in dict(Order_Status_Choices.choices)`
becomes membership in this list of choice values. -/
def orderStatusChoices : List String := ["pending", "paid", "failed"]

/-- The overlap query of lines 134-138:
`Booking.objects.filter(service_id = self.service_id,
start_time__lt = self.end_time, end_time__gt = self.start_time)
.exclude(id = self.id)`. -/
def overlappingBookings (env : Env) (self : Booking) : List Booking :=
  (env.bookings.filter fun b =>
      b.service_id == self.service_id &&
      decide (b.start_time < self.end_time) &&
      decide (b.end_time > self.start_time)).filter
    fun b => b.id != self.id

/-- Line 140: `overlapping_bookings.exists()`. -/
def hasOverlap (env : Env) (self : Booking) : Bool :=
  !(overlappingBookings env self).isEmpty

/-- Lines 161-185 of `clean`: the working-hours validation given the
staff working-hours record found.  Reads only the weekday of
`startT` and the seconds of day of `startT` and `endT`. -/
def hoursCheck (staff_times : Staff_Times) (startT endT : Int) : Option CleanError :=
  let day_of_week := weekdayName startT
  match staff_times.working_hours.lookup day_of_week with
  | none => some .dayNotDefined
  | some day_times =>
    let start_str := day_times.startS.getD ""
    let end_str := day_times.endS.getD ""
    if start_str = "" ∨ end_str = "" then some .incompleteHours
    else
      match parse12Hour start_str with
      | none => some (.valueError start_str)
      | some day_start =>
        match parse12Hour end_str with
        | none => some (.valueError end_str)
        | some day_end =>
          let booking_start := timeOfDay startT
          let booking_end := timeOfDay endT
          if ¬(day_start ≤ booking_start ∧ booking_start ≤ day_end) ∨
             ¬(day_start ≤ booking_end ∧ booking_end ≤ day_end) then
            some .outsideHours
          else none

/-- The embedding of `Booking.clean` (lines 116-195): `none` on success,
`some e` when the method terminates with exception `e`.  The checks
appear in source order and the first failing one terminates the
method. -/
def clean (env : Env) (self : Booking) : Option CleanError :=
  if self.start_time ≥ self.end_time then some .startBeforeEnd
  else
    let future_time := env.now - 20
    if self.start_time < future_time then some .startInPast
    else if hasOverlap env self then some .overlap
    else
      match env.assigned_staffs with
      | none => some .noStaff
      | some assigned_staff =>
        match env.staff_times assigned_staff with
        | none => some .noWorkingHours
        | some staff_times =>
          match hoursCheck staff_times self.start_time self.end_time with
          | some e => some e
          | none =>
            if self.payment_status ∉ orderStatusChoices then some .invalidStatus
            else none

/-- The staff working-hours record that `clean` ends up consulting:
the composition of the staff lookup and the `Staff_Times` lookup. -/
def getStaffTimes (env : Env) : Option Staff_Times :=
  env.assigned_staffs.bind env.staff_times

/-- Check 1 (line 120): time-range sanity. -/
def checkTimeOrder (self : Booking) : Option CleanError :=
  if self.start_time ≥ self.end_time then some .startBeforeEnd else none

/-- Check 2 (lines 126-131): the 20-second near-past window. -/
def checkNotPast (env : Env) (self : Booking) : Option CleanError :=
  if self.start_time < env.now - 20 then some .startInPast else none

/-- Check 3 (lines 134-143): overlap with an existing booking. -/
def checkOverlap (env : Env) (self : Booking) : Option CleanError :=
  if hasOverlap env self then some .overlap else none

/-- Check 4 (lines 146-151): the service has an assigned staff. -/
def checkStaffAssigned (env : Env) : Option CleanError :=
  match env.assigned_staffs with
  | none => some .noStaff
  | some _ => none

/-- Check 5 (lines 154-159): the staff has a working-hours record. -/
def checkStaffHours (env : Env) : Option CleanError :=
  match env.assigned_staffs with
  | none => none
  | some staff =>
    match env.staff_times staff with
    | none => some .noWorkingHours
    | some _ => none

/-- Check 6 (lines 162-166): the weekday of `start_time` has an entry. -/
def checkDayDefined (env : Env) (self : Booking) : Option CleanError :=
  match getStaffTimes env with
  | none => none
  | some st =>
    match st.working_hours.lookup (weekdayName self.start_time) with
    | none => some .dayNotDefined
    | some _ => none

/-- Check 7 (lines 168-178): the day entry has both strings and both
parse (a failing `strptime` escapes as `valueError`). -/
def checkDayStrings (env : Env) (self : Booking) : Option CleanError :=
  match getStaffTimes env with
  | none => none
  | some st =>
    match st.working_hours.lookup (weekdayName self.start_time) with
    | none => none
    | some day_times =>
      let start_str := day_times.startS.getD ""
      let end_str := day_times.endS.getD ""
      if start_str = "" ∨ end_str = "" then some .incompleteHours
      else
        match parse12Hour start_str with
        | none => some (.valueError start_str)
        | some _ =>
          match parse12Hour end_str with
          | none => some (.valueError end_str)
          | some _ => none

/-- Check 8 (lines 179-185): both booking times of day within the
working range. -/
def checkWithinHours (env : Env) (self : Booking) : Option CleanError :=
  match getStaffTimes env with
  | none => none
  | some st =>
    match st.working_hours.lookup (weekdayName self.start_time) with
    | none => none
    | some day_times =>
      let start_str := day_times.startS.getD ""
      let end_str := day_times.endS.getD ""
      if start_str = "" ∨ end_str = "" then none
      else
        match parse12Hour start_str with
        | none => none
        | some day_start =>
          match parse12Hour end_str with
          | none => none
          | some day_end =>
            if ¬(day_start ≤ timeOfDay self.start_time ∧ timeOfDay self.start_time ≤ day_end) ∨
               ¬(day_start ≤ timeOfDay self.end_time ∧ timeOfDay self.end_time ≤ day_end) then
              some .outsideHours
            else none

/-- Check 9 (lines 189-193): payment status within the enumeration. -/
def checkPayment (self : Booking) : Option CleanError :=
  if self.payment_status ∉ orderStatusChoices then some .invalidStatus else none

/-- First error in a list of check outcomes, in order. -/
def firstSome : List (Option CleanError) → Option CleanError
  | [] => none
  | none :: rest => firstSome rest
  | some e :: _ => some e

/-- A working-hours record with Monday hours 09:00AM-05:00PM. -/
def stMon : Staff_Times := ⟨[("monday", ⟨some "09:00AM", some "05:00PM"⟩)]⟩

/-- An environment whose clock reads Monday 1970-01-05 10:00AM
(timestamp 381600), with no persisted bookings, service staff 1, and
`stMon` as the working-hours record of every staff member. -/
def envMon : Env := ⟨381600, [], some 1, fun _ => some stMon⟩

/-- A candidate booking Monday 10:00AM-10:30AM for service 7. -/
def bMon : Booking := ⟨1, 381600, 383400, 7, false, "pending"⟩

/-- A booking whose start is not before its end. -/
def bSwap : Booking := ⟨1, 383400, 381600, 7, false, "pending"⟩

/-- A booking starting more than 20 seconds before the clock of `envMon`. -/
def bPast : Booking := ⟨1, 381000, 383400, 7, false, "pending"⟩

/-- Variant of `envMon` with an existing booking for service 7, Monday 10:06AM-10:23AM. -/
def envOverlap : Env := { envMon with bookings := [⟨2, 382000, 383000, 7, false, "pending"⟩] }

/-- Variant of `envMon` with the same overlapping existing booking, but canceled. -/
def envCanceledOverlap : Env :=
  { envMon with bookings := [⟨2, 382000, 383000, 7, true, "pending"⟩] }

/-- Variant of `envMon` with no staff assigned to the service. -/
def envNoStaff : Env := { envMon with assigned_staffs := none }

/-- Variant of `envMon` where no staff member has a working-hours record. -/
def envNoTimes : Env := { envMon with staff_times := fun _ => none }

/-- Variant of `envMon` where the Monday start string "9AM" does not parse. -/
def envBadString : Env :=
  { envMon with staff_times := fun _ => some ⟨[("monday", ⟨some "9AM", some "05:00PM"⟩)]⟩ }

/-- Variant of `bMon` with a payment status outside the enumeration. -/
def bWeird : Booking := { bMon with payment_status := "weird" }

/-- Variant of `bMon` stretched to end the following Monday 10:30AM (timestamp
988200), so the interval spans seven days. -/
def bWeek : Booking := { bMon with end_time := 988200 }

/-- A Monday 08:00AM-08:30AM booking (timestamps 374400, 376200). -/
def bMon8 : Booking := ⟨1, 374400, 376200, 7, false, "pending"⟩

/-- Variant of `envMon` with the clock moved back to Monday 08:00AM. -/
def envMon8 : Env := { envMon with now := 374400 }

theorem hasOverlap_iff (env : Env) (self : Booking) :
    hasOverlap env self = true ↔
      ∃ b ∈ env.bookings, b.id ≠ self.id ∧ b.service_id = self.service_id ∧
        b.start_time < self.end_time ∧ b.end_time > self.start_time := by
  unfold hasOverlap overlappingBookings
  rw [Bool.not_eq_true', List.isEmpty_eq_false, Ne, List.eq_nil_iff_forall_not_mem]
  push_neg
  simp only [List.mem_filter, Bool.and_eq_true, beq_iff_eq, decide_eq_true_eq, bne_iff_ne,
    gt_iff_lt]
  tauto

theorem hoursCheck_cases (st : Staff_Times) (s e : Int) (c : CleanError)
    (h : hoursCheck st s e = some c) :
    c = .dayNotDefined ∨ c = .incompleteHours ∨ c = .outsideHours ∨
      ∃ msg, c = .valueError msg := by
  simp only [hoursCheck] at h
  repeat' split at h
  any_goals simp_all
  all_goals subst h
  all_goals simp

theorem clean_late_cases (env : Env) (self : Booking) (c : CleanError)
    (h1 : ¬ self.start_time ≥ self.end_time)
    (h2 : ¬ self.start_time < env.now - 20)
    (h3 : hasOverlap env self = false)
    (h : clean env self = some c) :
    c = .noStaff ∨ c = .noWorkingHours ∨ c = .dayNotDefined ∨ c = .incompleteHours ∨
      c = .outsideHours ∨ c = .invalidStatus ∨ ∃ msg, c = .valueError msg := by
  simp only [clean] at h
  rw [if_neg h1, if_neg h2] at h
  simp only [h3, Bool.false_eq_true, if_false] at h
  rcases ha : env.assigned_staffs with _ | staff <;> simp only [ha] at h
  · exact Or.inl (Option.some.inj h).symm
  · rcases hb : env.staff_times staff with _ | st <;> simp only [hb] at h
    · exact Or.inr (Or.inl (Option.some.inj h).symm)
    · rcases hcc : hoursCheck st self.start_time self.end_time with _ | e <;> simp only [hcc] at h
      · split at h
        · exact Or.inr (Or.inr (Or.inr (Or.inr (Or.inr (Or.inl (Option.some.inj h).symm)))))
        · exact Option.noConfusion h
      · have hc := hoursCheck_cases st self.start_time self.end_time e hcc
        rw [Option.some.injEq] at h
        rw [h] at hc
        tauto

/-- C6: a candidate booking with `start_time >= end_time` is rejected by
`clean` with a validation error scoped to `start_time`, and every booking
that completes `clean` without error satisfies `start_time < end_time`. -/
theorem C6_time_range_sanity (env : Env) (self : Booking) :
    (self.start_time ≥ self.end_time →
      clean env self = some .startBeforeEnd ∧ fieldOf .startBeforeEnd = some "start_time") ∧
    (clean env self = none → self.start_time < self.end_time) := by
  constructor
  · intro h
    refine ⟨?_, rfl⟩
    simp only [clean]
    rw [if_pos h]
  · intro hn
    by_contra hlt
    push_neg at hlt
    simp only [clean] at hn
    rw [if_pos hlt.ge] at hn
    exact Option.noConfusion hn

/-- Witness for C6 at a concrete input: `bSwap` starts after it ends. -/
theorem C6_witness :
    clean envMon bSwap = some CleanError.startBeforeEnd ∧
      fieldOf CleanError.startBeforeEnd = some "start_time" :=
  (C6_time_range_sanity envMon bSwap).1 (by decide)

/-- C5: given `start_time < end_time`, `clean` rejects with the
start_time-scoped near-past error exactly when `start_time` is strictly
earlier than `now - 20` seconds; at or after that cutoff the near-past
error cannot be raised. -/
theorem C5_twenty_second_window (env : Env) (self : Booking)
    (h : self.start_time < self.end_time) :
    (self.start_time < env.now - 20 →
      clean env self = some .startInPast ∧ fieldOf .startInPast = some "start_time") ∧
    (env.now - 20 ≤ self.start_time → clean env self ≠ some .startInPast) := by
  have h1 : ¬ self.start_time ≥ self.end_time := not_le.mpr h
  constructor
  · intro h2
    refine ⟨?_, rfl⟩
    simp only [clean]
    rw [if_neg h1, if_pos h2]
  · intro h2' hc
    have h2 : ¬ self.start_time < env.now - 20 := not_lt.mpr h2'
    by_cases h3 : hasOverlap env self = true
    · simp only [clean] at hc
      rw [if_neg h1, if_neg h2, if_pos h3] at hc
      simp at hc
    · have h3' : hasOverlap env self = false := by simpa using h3
      have := clean_late_cases env self .startInPast h1 h2 h3' hc
      simp at this

/-- Witness for C5 at a concrete input: `bPast` starts 600 seconds
before the clock of `envMon`. -/
theorem C5_witness :
    clean envMon bPast = some CleanError.startInPast ∧
      fieldOf CleanError.startInPast = some "start_time" :=
  (C5_twenty_second_window envMon bPast (by decide)).1 (by decide)

/-- C1: for a candidate passing the sanity and 20-second checks, `clean`
raises the start_time-scoped overlap error exactly when some other
persisted booking of the same service satisfies
`existing.start_time < new.end_time` and `existing.end_time > new.start_time`;
in particular bookings that merely touch at a boundary do not trigger it. -/
theorem C1_overlap_iff (env : Env) (self : Booking)
    (h1 : self.start_time < self.end_time)
    (h2 : env.now - 20 ≤ self.start_time) :
    (clean env self = some .overlap ↔
      ∃ b ∈ env.bookings, b.id ≠ self.id ∧ b.service_id = self.service_id ∧
        b.start_time < self.end_time ∧ b.end_time > self.start_time) ∧
    fieldOf .overlap = some "start_time" := by
  have h1' : ¬ self.start_time ≥ self.end_time := not_le.mpr h1
  have h2' : ¬ self.start_time < env.now - 20 := not_lt.mpr h2
  refine ⟨⟨?_, ?_⟩, rfl⟩
  · intro hc
    rw [← hasOverlap_iff]
    by_contra hno
    have h3 : hasOverlap env self = false := by simpa using hno
    have := clean_late_cases env self .overlap h1' h2' h3 hc
    simp at this
  · intro hex
    have h3 : hasOverlap env self = true := (hasOverlap_iff env self).mpr hex
    simp only [clean]
    rw [if_neg h1', if_neg h2', if_pos h3]

/-- Witness for C1 at a concrete input: `envOverlap` holds an existing
overlapping booking for the same service. -/
theorem C1_witness : clean envOverlap bMon = some CleanError.overlap :=
  ((C1_overlap_iff envOverlap bMon (by decide) (by decide)).1).mpr (by decide)

/-- C8: once the time-range, 20-second and overlap checks pass, a
service with no assigned staff is always rejected with a
service_id-scoped error, and an assigned staff without a working-hours
record likewise. -/
theorem C8_staff_errors (env : Env) (self : Booking)
    (h1 : self.start_time < self.end_time)
    (h2 : env.now - 20 ≤ self.start_time)
    (h3 : hasOverlap env self = false) :
    (env.assigned_staffs = none →
      clean env self = some .noStaff ∧ fieldOf .noStaff = some "service_id") ∧
    (∀ staff, env.assigned_staffs = some staff → env.staff_times staff = none →
      clean env self = some .noWorkingHours ∧ fieldOf .noWorkingHours = some "service_id") := by
  have h1' : ¬ self.start_time ≥ self.end_time := not_le.mpr h1
  have h2' : ¬ self.start_time < env.now - 20 := not_lt.mpr h2
  constructor
  · intro ha
    refine ⟨?_, rfl⟩
    simp only [clean]
    rw [if_neg h1', if_neg h2']
    simp only [h3, Bool.false_eq_true, if_false, ha]
  · intro staff ha hb
    refine ⟨?_, rfl⟩
    simp only [clean]
    rw [if_neg h1', if_neg h2']
    simp only [h3, Bool.false_eq_true, if_false, ha, hb]

/-- Witness for C8 at concrete inputs: no assigned staff, and assigned
staff with no working-hours record. -/
theorem C8_witness :
    (clean envNoStaff bMon = some CleanError.noStaff ∧
      fieldOf CleanError.noStaff = some "service_id") ∧
    (clean envNoTimes bMon = some CleanError.noWorkingHours ∧
      fieldOf CleanError.noWorkingHours = some "service_id") :=
  ⟨(C8_staff_errors envNoStaff bMon (by decide) (by decide) (by decide)).1 rfl,
   (C8_staff_errors envNoTimes bMon (by decide) (by decide) (by decide)).2 1 rfl rfl⟩

/-- C2 (amended): every validation failure other than the
payment-status one is field-scoped; the payment-status check raises a
`ValidationError` with no field key. -/
theorem C2_field_scoped (env : Env) (self : Booking) (c : CleanError)
    (h : clean env self = some c) (hv : isValidationError c = true)
    (hne : c ≠ .invalidStatus) :
    (fieldOf c).isSome = true := by
  cases c <;> simp_all [isValidationError, fieldOf]

/-- Witness for C2 at a concrete input: the error of the first check carries
the `start_time` key. -/
theorem C2_witness : (fieldOf CleanError.startBeforeEnd).isSome = true :=
  C2_field_scoped envMon bSwap CleanError.startBeforeEnd (by decide) (by decide) (by decide)

/-- Counterexample to C2 as stated: the payment-status check raises a
validation error with no field key. -/
theorem C2_payment_not_field_scoped :
    clean envMon bWeird = some CleanError.invalidStatus ∧
      isValidationError CleanError.invalidStatus = true ∧
      fieldOf CleanError.invalidStatus = none := by
  refine ⟨by decide, rfl, rfl⟩

/-- Counterexample to C3 as stated: a present, non-empty working-hours
string that does not parse makes `clean` terminate with an uncaught
`ValueError` from `strptime`, not a validation failure. -/
theorem C3_parse_failure_not_validation :
    clean envBadString bMon = some (CleanError.valueError "9AM") ∧
      isValidationError (CleanError.valueError "9AM") = false := by
  refine ⟨by decide, rfl⟩

/-- C3 (amended): for the weekday entry actually consulted, missing or
empty strings are rejected with the field-scoped incomplete-hours
validation error, while a present non-empty string that fails to parse
escapes as a `ValueError`, which is not a validation failure. -/
theorem C3_incomplete_vs_parse (env : Env) (self : Booking) (staff : Nat)
    (st : Staff_Times) (dt : DayTimes)
    (h1 : self.start_time < self.end_time)
    (h2 : env.now - 20 ≤ self.start_time)
    (h3 : hasOverlap env self = false)
    (ha : env.assigned_staffs = some staff)
    (hb : env.staff_times staff = some st)
    (hl : st.working_hours.lookup (weekdayName self.start_time) = some dt) :
    ((dt.startS.getD "" = "" ∨ dt.endS.getD "" = "") →
      clean env self = some .incompleteHours ∧
        isValidationError .incompleteHours = true ∧
        fieldOf .incompleteHours = some "start_time") ∧
    (dt.startS.getD "" ≠ "" → dt.endS.getD "" ≠ "" →
      parse12Hour (dt.startS.getD "") = none →
      clean env self = some (.valueError (dt.startS.getD "")) ∧
        isValidationError (.valueError (dt.startS.getD "")) = false) ∧
    (∀ ds, dt.startS.getD "" ≠ "" → dt.endS.getD "" ≠ "" →
      parse12Hour (dt.startS.getD "") = some ds →
      parse12Hour (dt.endS.getD "") = none →
      clean env self = some (.valueError (dt.endS.getD "")) ∧
        isValidationError (.valueError (dt.endS.getD "")) = false) := by
  have h1' : ¬ self.start_time ≥ self.end_time := not_le.mpr h1
  have h2' : ¬ self.start_time < env.now - 20 := not_lt.mpr h2
  have key : ∀ o : Option CleanError, hoursCheck st self.start_time self.end_time = o →
      clean env self = (match o with
        | some e => some e
        | none => if self.payment_status ∉ orderStatusChoices then some .invalidStatus
                  else none) := by
    intro o ho
    simp only [clean]
    rw [if_neg h1', if_neg h2']
    simp only [h3, Bool.false_eq_true, if_false, ha, hb, ho]
  refine ⟨?_, ?_, ?_⟩
  · intro hss
    have hh : hoursCheck st self.start_time self.end_time = some .incompleteHours := by
      simp only [hoursCheck, hl]
      rw [if_pos hss]
    exact ⟨key _ hh, rfl, rfl⟩
  · intro hs he hp
    have hh : hoursCheck st self.start_time self.end_time
        = some (.valueError (dt.startS.getD "")) := by
      simp only [hoursCheck, hl, hp]
      rw [if_neg (by tauto)]
    exact ⟨key _ hh, rfl⟩
  · intro ds hs he hp1 hp2
    have hh : hoursCheck st self.start_time self.end_time
        = some (.valueError (dt.endS.getD "")) := by
      simp only [hoursCheck, hl, hp1, hp2]
      rw [if_neg (by tauto)]
    exact ⟨key _ hh, rfl⟩

/-- Witness for C3 (amended) at a concrete input: the unparseable
Monday start string "9AM" of `envBadString`. -/
theorem C3_witness :
    clean envBadString bMon = some (CleanError.valueError "9AM") ∧
      isValidationError (CleanError.valueError "9AM") = false :=
  (C3_incomplete_vs_parse envBadString bMon 1 ⟨[("monday", ⟨some "9AM", some "05:00PM"⟩)]⟩
      ⟨some "9AM", some "05:00PM"⟩ (by decide) (by decide) (by decide) rfl rfl
      (by decide)).2.1 (by decide) (by decide) (by decide)

/-- C4: a booking reaching the working-hours comparison is accepted by
it exactly when both its start and end times of day lie in the closed
interval parsed from the weekday entry; concretely, with Monday hours
09:00AM-05:00PM a Monday 10:00AM-10:30AM booking passes the whole
validation and a Monday 08:00AM-08:30AM booking is rejected with the
outside-hours error. -/
theorem C4_within_hours_iff :
    (∀ (st : Staff_Times) (s e : Int) (dt : DayTimes) (ds de : Int),
      st.working_hours.lookup (weekdayName s) = some dt →
      dt.startS.getD "" ≠ "" → dt.endS.getD "" ≠ "" →
      parse12Hour (dt.startS.getD "") = some ds →
      parse12Hour (dt.endS.getD "") = some de →
      (hoursCheck st s e = none ↔
        (ds ≤ timeOfDay s ∧ timeOfDay s ≤ de ∧ ds ≤ timeOfDay e ∧ timeOfDay e ≤ de))) ∧
    clean envMon bMon = none ∧ clean envMon8 bMon8 = some CleanError.outsideHours := by
  refine ⟨?_, by decide, by decide⟩
  intro st s e dt ds de hl hs he hp1 hp2
  simp only [hoursCheck, hl, hp1, hp2]
  rw [if_neg (by tauto : ¬(dt.startS.getD "" = "" ∨ dt.endS.getD "" = ""))]
  by_cases hcond : ¬(ds ≤ timeOfDay s ∧ timeOfDay s ≤ de) ∨
      ¬(ds ≤ timeOfDay e ∧ timeOfDay e ≤ de)
  · rw [if_pos hcond]
    simp only [Option.some_ne_none, false_iff]
    tauto
  · rw [if_neg hcond]
    push_neg at hcond
    simp only [true_iff]
    tauto

/-- Witness for C4 at a concrete input: the Monday 10:00AM-10:30AM
booking against Monday hours 09:00AM-05:00PM. -/
theorem C4_witness :
    hoursCheck stMon 381600 383400 = none ↔
      ((32400 : Int) ≤ timeOfDay 381600 ∧ timeOfDay 381600 ≤ 61200 ∧
       (32400 : Int) ≤ timeOfDay 383400 ∧ timeOfDay 383400 ≤ 61200) :=
  C4_within_hours_iff.1 stMon 381600 383400 ⟨some "09:00AM", some "05:00PM"⟩ 32400 61200
    (by decide) (by decide) (by decide) (by decide) (by decide)

/-- C9: `clean` never reads `is_canceled`: flipping the cancellation
flag of every persisted booking leaves its outcome unchanged, and a
canceled overlapping booking still triggers the overlap rejection. -/
theorem C9_cancellation_ignored :
    (∀ (env : Env) (self : Booking) (f : Booking → Bool),
      clean { env with bookings := env.bookings.map fun b => { b with is_canceled := f b } } self
        = clean env self) ∧
    clean envCanceledOverlap bMon = some CleanError.overlap := by
  constructor
  · intro env self f
    have hov : hasOverlap
        { env with bookings := env.bookings.map fun b => { b with is_canceled := f b } } self
        = hasOverlap env self := by
      rw [Bool.eq_iff_iff, hasOverlap_iff, hasOverlap_iff]
      constructor
      · rintro ⟨b, hb, hprop⟩
        simp only [List.mem_map] at hb
        obtain ⟨a, ha, rfl⟩ := hb
        exact ⟨a, ha, by simpa using hprop⟩
      · rintro ⟨b, hb, hprop⟩
        refine ⟨{ b with is_canceled := f b }, ?_, by simpa using hprop⟩
        simp only [List.mem_map]
        exact ⟨b, hb, rfl⟩
    simp only [clean]
    rw [hov]
  · decide

/-- C10: the working-hours validation depends only on the weekday of
the start timestamp and the times of day of the two timestamps, never
on their dates; a booking spanning seven days still passes the whole
validation when both clock times fall inside the range of the single
consulted day. -/
theorem C10_time_of_day_only :
    (∀ (st : Staff_Times) (s e s' e' : Int),
      weekdayName s = weekdayName s' → timeOfDay s = timeOfDay s' →
      timeOfDay e = timeOfDay e' →
      hoursCheck st s e = hoursCheck st s' e') ∧
    clean envMon bWeek = none := by
  constructor
  · intro st s e s' e' hw hs he
    simp only [hoursCheck, hw, hs, he]
  · decide

/-- Witness for C10 at concrete inputs: Monday 10:00AM-10:30AM and the
same clock times seven days later agree on the working-hours check. -/
theorem C10_witness :
    hoursCheck stMon 381600 383400 = hoursCheck stMon 986400 988200 :=
  C10_time_of_day_only.1 stMon 381600 383400 986400 988200 (by decide) (by decide) (by decide)

/-- C7: `clean` is the first-failure sequencing of the nine checks in
source order (time-range sanity, 20-second window, overlap, staff
assignment, working-hours record, weekday entry, time-string parsing,
within-hours, payment status): the outcome is the error of the earliest
violated check, and later checks cannot contribute. -/
theorem C7_check_order (env : Env) (self : Booking) :
    clean env self = firstSome
      [checkTimeOrder self, checkNotPast env self, checkOverlap env self,
       checkStaffAssigned env, checkStaffHours env, checkDayDefined env self,
       checkDayStrings env self, checkWithinHours env self, checkPayment self] := by
  have hfs_some : ∀ (e : CleanError) (rest : List (Option CleanError)),
      firstSome (some e :: rest) = some e := fun _ _ => rfl
  have hfs_none : ∀ rest : List (Option CleanError),
      firstSome (none :: rest) = firstSome rest := fun _ => rfl
  by_cases h1 : self.start_time ≥ self.end_time
  · have c1 : checkTimeOrder self = some .startBeforeEnd := if_pos h1
    rw [c1, hfs_some]
    simp only [clean]
    rw [if_pos h1]
  · have c1 : checkTimeOrder self = none := if_neg h1
    rw [c1, hfs_none]
    by_cases h2 : self.start_time < env.now - 20
    · have c2 : checkNotPast env self = some .startInPast := if_pos h2
      rw [c2, hfs_some]
      simp only [clean]
      rw [if_neg h1, if_pos h2]
    · have c2 : checkNotPast env self = none := if_neg h2
      rw [c2, hfs_none]
      cases h3 : hasOverlap env self with
      | true =>
        have c3 : checkOverlap env self = some .overlap := by
          simp only [checkOverlap]
          rw [if_pos h3]
        rw [c3, hfs_some]
        simp only [clean]
        rw [if_neg h1, if_neg h2, if_pos h3]
      | false =>
        have c3 : checkOverlap env self = none := by
          simp only [checkOverlap, h3, Bool.false_eq_true, if_false]
        rw [c3, hfs_none]
        rcases ha : env.assigned_staffs with _ | staff
        · have c4 : checkStaffAssigned env = some .noStaff := by
            simp only [checkStaffAssigned, ha]
          rw [c4, hfs_some]
          simp only [clean]
          rw [if_neg h1, if_neg h2]
          simp only [h3, Bool.false_eq_true, if_false, ha]
        · have c4 : checkStaffAssigned env = none := by
            simp only [checkStaffAssigned, ha]
          rw [c4, hfs_none]
          rcases hb : env.staff_times staff with _ | st
          · have c5 : checkStaffHours env = some .noWorkingHours := by
              simp only [checkStaffHours, ha, hb]
            rw [c5, hfs_some]
            simp only [clean]
            rw [if_neg h1, if_neg h2]
            simp only [h3, Bool.false_eq_true, if_false, ha, hb]
          · have c5 : checkStaffHours env = none := by
              simp only [checkStaffHours, ha, hb]
            rw [c5, hfs_none]
            have hg : getStaffTimes env = some st := by
              simp [getStaffTimes, ha, hb]
            have hcleanSome : ∀ e, hoursCheck st self.start_time self.end_time = some e →
                clean env self = some e := by
              intro e ho
              simp only [clean]
              rw [if_neg h1, if_neg h2]
              simp only [h3, Bool.false_eq_true, if_false, ha, hb, ho]
            have hcleanNone : hoursCheck st self.start_time self.end_time = none →
                clean env self =
                  if self.payment_status ∉ orderStatusChoices then some .invalidStatus
                  else none := by
              intro ho
              simp only [clean]
              rw [if_neg h1, if_neg h2]
              simp only [h3, Bool.false_eq_true, if_false, ha, hb, ho]
            rcases hl : st.working_hours.lookup (weekdayName self.start_time) with _ | dt
            · have c6 : checkDayDefined env self = some .dayNotDefined := by
                simp only [checkDayDefined, hg, hl]
              rw [c6, hfs_some]
              exact hcleanSome _ (by simp only [hoursCheck, hl])
            · have c6 : checkDayDefined env self = none := by
                simp only [checkDayDefined, hg, hl]
              rw [c6, hfs_none]
              by_cases hss : dt.startS.getD "" = "" ∨ dt.endS.getD "" = ""
              · have c7 : checkDayStrings env self = some .incompleteHours := by
                  simp only [checkDayStrings, hg, hl]
                  rw [if_pos hss]
                rw [c7, hfs_some]
                exact hcleanSome _ (by simp only [hoursCheck, hl]; rw [if_pos hss])
              · rcases hp1 : parse12Hour (dt.startS.getD "") with _ | ds
                · have c7 : checkDayStrings env self = some (.valueError (dt.startS.getD "")) := by
                    simp only [checkDayStrings, hg, hl, hp1]
                    rw [if_neg hss]
                  rw [c7, hfs_some]
                  exact hcleanSome _ (by simp only [hoursCheck, hl, hp1]; rw [if_neg hss])
                · rcases hp2 : parse12Hour (dt.endS.getD "") with _ | de
                  · have c7 : checkDayStrings env self = some (.valueError (dt.endS.getD "")) := by
                      simp only [checkDayStrings, hg, hl, hp1, hp2]
                      rw [if_neg hss]
                    rw [c7, hfs_some]
                    exact hcleanSome _ (by simp only [hoursCheck, hl, hp1, hp2]; rw [if_neg hss])
                  · have c7 : checkDayStrings env self = none := by
                      simp only [checkDayStrings, hg, hl, hp1, hp2]
                      rw [if_neg hss]
                    rw [c7, hfs_none]
                    by_cases hw : ¬(ds ≤ timeOfDay self.start_time ∧
                        timeOfDay self.start_time ≤ de) ∨
                        ¬(ds ≤ timeOfDay self.end_time ∧ timeOfDay self.end_time ≤ de)
                    · have c8 : checkWithinHours env self = some .outsideHours := by
                        simp only [checkWithinHours, hg, hl, hp1, hp2]
                        rw [if_neg hss, if_pos hw]
                      rw [c8, hfs_some]
                      exact hcleanSome _
                        (by simp only [hoursCheck, hl, hp1, hp2]; rw [if_neg hss, if_pos hw])
                    · have c8 : checkWithinHours env self = none := by
                        simp only [checkWithinHours, hg, hl, hp1, hp2]
                        rw [if_neg hss, if_neg hw]
                      rw [c8, hfs_none]
                      have hh : hoursCheck st self.start_time self.end_time = none := by
                        simp only [hoursCheck, hl, hp1, hp2]
                        rw [if_neg hss, if_neg hw]
                      by_cases hpay : self.payment_status ∉ orderStatusChoices
                      · have c9 : checkPayment self = some .invalidStatus := if_pos hpay
                        rw [c9, hfs_some, hcleanNone hh, if_pos hpay]
                      · have c9 : checkPayment self = none := if_neg hpay
                        rw [c9, hfs_none, hcleanNone hh, if_neg hpay]
                        rfl
